import Mathlib

/-!
Formal model of the xDrip Pebble reference watchface's inbound-message decoding.

The model covers `new_xdrip_data_callback`, `safe_strncpy`, the graph payload
decode (both the current extended wire revision in `src/c/main.c` — 6-byte
header, little-endian uint16 count clamped to 300, uint16 offsets, 1-byte
half-resolution values — and the earlier compact revision — 5-byte header,
uint8 count clamped to 60, uint8 offsets), the arrow display test in
`update_displayed_xdrip_data`, and the early return in
`update_displayed_time_ago`.

Byte buffers arriving from the peer are `List Nat` (each element a byte value);
the fixed on-device arrays are `Nat → Nat` maps from index to stored value.
Alongside each decoder we define the list of payload indices it reads and the
list of global-array indices it reads/writes, so that bounds claims are
statements about those lists.
-/

namespace XdripWatchface

/-- C expression `b0 | (b1 << 8)` used for little-endian uint16 fields. -/
def le16 (b0 b1 : Nat) : Nat := b0 ||| b1 <<< 8

/-- C expression `b0 | (b1 << 8) | (b2 << 16) | (b3 << 24)` used for the
little-endian uint32 reference timestamp. -/
def le32 (b0 b1 b2 b3 : Nat) : Nat := b0 ||| b1 <<< 8 ||| b2 <<< 16 ||| b3 <<< 24

theorem lor_shiftLeft_eq_add (k a b : Nat) (h : a < 2 ^ k) :
    a ||| b <<< k = a + b * 2 ^ k := by
  induction k generalizing a b with
  | zero =>
    have ha : a = 0 := by omega
    subst ha
    simp [Nat.shiftLeft_zero]
  | succ k ih =>
    have hbit : Nat.bit (a.testBit 0) (a >>> 1) = a := Nat.bit_testBit_zero_shiftRight_one a
    have hs : b <<< (k + 1) = Nat.bit false (b <<< k) := by
      simp only [Nat.bit_val, Bool.toNat_false, Nat.shiftLeft_eq, Nat.pow_succ]
      ring
    have hhalf : a >>> 1 < 2 ^ k := by
      rw [Nat.shiftRight_one]
      rw [Nat.pow_succ] at h
      omega
    calc a ||| b <<< (k + 1)
        = Nat.bit (a.testBit 0) (a >>> 1) ||| Nat.bit false (b <<< k) := by rw [hbit, hs]
      _ = Nat.bit (a.testBit 0 || false) (a >>> 1 ||| b <<< k) :=
          Nat.lor_bit (a.testBit 0) (a >>> 1) false (b <<< k)
      _ = Nat.bit (a.testBit 0) (a >>> 1 + b * 2 ^ k) := by
          rw [Bool.or_false, ih (a >>> 1) b hhalf]
      _ = a + b * 2 ^ (k + 1) := by
          rw [Nat.bit_val] at hbit ⊢
          rw [Nat.shiftRight_one] at hbit ⊢
          rw [Nat.pow_succ, ← Nat.mul_assoc]
          omega

theorem le16_eq (b0 b1 : Nat) (h0 : b0 < 256) : le16 b0 b1 = b0 + b1 * 256 := by
  have h := lor_shiftLeft_eq_add 8 b0 b1 (by norm_num; omega)
  simpa [le16] using h

theorem le32_eq (b0 b1 b2 b3 : Nat) (h0 : b0 < 256) (h1 : b1 < 256) (h2 : b2 < 256) :
    le32 b0 b1 b2 b3 = b0 + b1 * 256 + b2 * 65536 + b3 * 16777216 := by
  have s1 := lor_shiftLeft_eq_add 8 b0 b1 (by norm_num; omega)
  have s2 := lor_shiftLeft_eq_add 16 (b0 + b1 * 2 ^ 8) b2 (by norm_num; omega)
  have s3 := lor_shiftLeft_eq_add 24 (b0 + b1 * 2 ^ 8 + b2 * 2 ^ 16) b3 (by norm_num; omega)
  have : le32 b0 b1 b2 b3 = b0 + b1 * 2 ^ 8 + b2 * 2 ^ 16 + b3 * 2 ^ 24 := by
    rw [le32, s1, s2, s3]
  simpa using this

/-- Every byte fetched from an all-bytes list (default 0 out of range) is below 256. -/
theorem getD_lt_256 (l : List Nat) (h : ∀ b ∈ l, b < 256) (i : Nat) : l.getD i 0 < 256 := by
  rcases Nat.lt_or_ge i l.length with hi | hi
  · rw [List.getD_eq_getElem l 0 hi]
    exact h _ (List.getElem_mem hi)
  · rw [List.getD_eq_default l 0 hi]
    omega

/-- The graph-series globals `s_graph_ref_timestamp`, `s_graph_count`,
`s_graph_offsets`, `s_graph_bg_values`. The fixed arrays are index-to-value
maps; the relevant capacity is 300 (extended revision) or 60 (compact). -/
structure GraphSt where
  ref_timestamp : Nat
  count : Nat
  offsets : Nat → Nat
  bg_values : Nat → Nat

/-- `MAX_GRAPH_POINTS` in main.c (extended revision). -/
def MAX_GRAPH_POINTS : Nat := 300

/-- `MAX_GRAPH_POINTS` in the compact protocol revision. -/
def MAX_GRAPH_POINTS_V1 : Nat := 60

/-- Effect on an array of a C loop `for (i = 0; i < n; i++) a[i] = v(i);`. -/
def storeLoop (v : Nat → Nat) : Nat → (Nat → Nat) → Nat → Nat
  | 0, a => a
  | n + 1, a => fun j => if j = n then v n else storeLoop v n a j

theorem storeLoop_eq (v : Nat → Nat) (n : Nat) (a : Nat → Nat) (j : Nat) :
    storeLoop v n a j = if j < n then v j else a j := by
  induction n with
  | zero => simp [storeLoop]
  | succ k ih =>
    simp only [storeLoop]
    by_cases h : j = k
    · subst h
      simp
    · rw [if_neg h, ih]
      by_cases h2 : j < k
      · rw [if_pos h2, if_pos (Nat.lt_succ_of_lt h2)]
      · rw [if_neg h2, if_neg (by omega)]

/-- The graph-data branch of `new_xdrip_data_callback` in main.c (extended
revision): guard `length >= 6`; parse the little-endian uint32 reference
timestamp from bytes 0..3 and the little-endian uint16 count from bytes 4..5
directly into the globals; clamp the count to `MAX_GRAPH_POINTS`; if
`length >= 6 + count * 3`, fill the offset array (uint16 little-endian pairs
from byte 6) and the value array (single bytes from `6 + count * 2`, times 2);
otherwise only the already-written header fields have changed. -/
def decode_graph_ext (data : List Nat) (g : GraphSt) : GraphSt :=
  if 6 ≤ data.length then
    let ref := le32 (data.getD 0 0) (data.getD 1 0) (data.getD 2 0) (data.getD 3 0)
    let count0 := le16 (data.getD 4 0) (data.getD 5 0)
    let count := if MAX_GRAPH_POINTS < count0 then MAX_GRAPH_POINTS else count0
    if 6 + count * 3 ≤ data.length then
      { ref_timestamp := ref
        count := count
        offsets :=
          storeLoop (fun i => le16 (data.getD (6 + i * 2) 0) (data.getD (6 + i * 2 + 1) 0))
            count g.offsets
        bg_values := storeLoop (fun i => data.getD (6 + count * 2 + i) 0 * 2) count g.bg_values }
    else
      { g with ref_timestamp := ref, count := count }
  else g

/-- Whether the extended-revision graph decode reaches the success path
(`layer_mark_dirty`). -/
def graph_accepted_ext (data : List Nat) : Bool :=
  if 6 ≤ data.length then
    let count0 := le16 (data.getD 4 0) (data.getD 5 0)
    let count := if MAX_GRAPH_POINTS < count0 then MAX_GRAPH_POINTS else count0
    decide (6 + count * 3 ≤ data.length)
  else false

/-- Payload indices read by the extended-revision graph decode: the six header
bytes once the length guard passes, and on acceptance the offset-pair bytes and
the value bytes. -/
def graph_payload_reads_ext (data : List Nat) : List Nat :=
  if 6 ≤ data.length then
    let count0 := le16 (data.getD 4 0) (data.getD 5 0)
    let count := if MAX_GRAPH_POINTS < count0 then MAX_GRAPH_POINTS else count0
    [0, 1, 2, 3, 4, 5] ++
      (if 6 + count * 3 ≤ data.length then
        (List.range count).flatMap (fun i => [6 + i * 2, 6 + i * 2 + 1]) ++
          (List.range count).map (fun i => 6 + count * 2 + i)
      else [])
  else []

/-- Indices (as C int values) at which the extended-revision decode reads the
global offset/value arrays: the success-path logging reads entry 0 and entry
`s_graph_count - 1` of both arrays. -/
def graph_array_reads_ext (data : List Nat) : List Int :=
  if 6 ≤ data.length then
    let count0 := le16 (data.getD 4 0) (data.getD 5 0)
    let count := if MAX_GRAPH_POINTS < count0 then MAX_GRAPH_POINTS else count0
    if 6 + count * 3 ≤ data.length then [0, (count : Int) - 1] else []
  else []

/-- Indices written in the global offset and value arrays by the
extended-revision decode loops. -/
def graph_array_writes_ext (data : List Nat) : List Nat :=
  if 6 ≤ data.length then
    let count0 := le16 (data.getD 4 0) (data.getD 5 0)
    let count := if MAX_GRAPH_POINTS < count0 then MAX_GRAPH_POINTS else count0
    if 6 + count * 3 ≤ data.length then List.range count ++ List.range count else []
  else []

/-- The graph-data branch of `new_xdrip_data_callback` in the compact protocol
revision: guard `length >= 5`; reference timestamp from bytes 0..3; uint8 count
from byte 4, clamped to 60; if `length >= 5 + count * 2`, offsets are single
bytes from byte 5 and values single bytes from `5 + count`, times 2. -/
def decode_graph_v1 (data : List Nat) (g : GraphSt) : GraphSt :=
  if 5 ≤ data.length then
    let ref := le32 (data.getD 0 0) (data.getD 1 0) (data.getD 2 0) (data.getD 3 0)
    let count0 := data.getD 4 0
    let count := if MAX_GRAPH_POINTS_V1 < count0 then MAX_GRAPH_POINTS_V1 else count0
    if 5 + count * 2 ≤ data.length then
      { ref_timestamp := ref
        count := count
        offsets := storeLoop (fun i => data.getD (5 + i) 0) count g.offsets
        bg_values := storeLoop (fun i => data.getD (5 + count + i) 0 * 2) count g.bg_values }
    else
      { g with ref_timestamp := ref, count := count }
  else g

/-- Whether the compact-revision graph decode reaches the success path. -/
def graph_accepted_v1 (data : List Nat) : Bool :=
  if 5 ≤ data.length then
    let count0 := data.getD 4 0
    let count := if MAX_GRAPH_POINTS_V1 < count0 then MAX_GRAPH_POINTS_V1 else count0
    decide (5 + count * 2 ≤ data.length)
  else false

/-- Payload indices read by the compact-revision graph decode. -/
def graph_payload_reads_v1 (data : List Nat) : List Nat :=
  if 5 ≤ data.length then
    let count0 := data.getD 4 0
    let count := if MAX_GRAPH_POINTS_V1 < count0 then MAX_GRAPH_POINTS_V1 else count0
    [0, 1, 2, 3, 4] ++
      (if 5 + count * 2 ≤ data.length then
        (List.range count).map (fun i => 5 + i) ++
          (List.range count).map (fun i => 5 + count + i)
      else [])
  else []

/-- Indices written in the global offset and value arrays by the
compact-revision decode loops. -/
def graph_array_writes_v1 (data : List Nat) : List Nat :=
  if 5 ≤ data.length then
    let count0 := data.getD 4 0
    let count := if MAX_GRAPH_POINTS_V1 < count0 then MAX_GRAPH_POINTS_V1 else count0
    if 5 + count * 2 ≤ data.length then List.range count ++ List.range count else []
  else []

/-- Effect of C `strncpy(dest, src, count)` on a buffer modeled as an
index-to-byte map: the first `min (src length) count` bytes come from `src`,
the remainder up to `count` is zero padding, indices at `count` and beyond keep
their old contents. `src` lists the source's bytes before its terminating NUL. -/
def strncpy_write (dest : Nat → Nat) (src : List Nat) (count : Nat) : Nat → Nat :=
  fun i => if i < count then (if i < src.length then src.getD i 0 else 0) else dest i

/-- `safe_strncpy` from main.c: when `count > 0`, `strncpy` then force a NUL at
index `count - 1`. -/
def safe_strncpy (dest : Nat → Nat) (src : List Nat) (count : Nat) : Nat → Nat :=
  if 0 < count then
    fun i => if i = count - 1 then 0 else strncpy_write dest src count i
  else dest

/-- Destination indices written by `safe_strncpy` with the given `count`
argument: `strncpy` writes exactly `count` bytes, then index `count - 1` is
written again. -/
def safe_strncpy_writes (count : Nat) : List Nat :=
  if 0 < count then List.range count ++ [count - 1] else []

/-- `sizeof(ARROWS) / sizeof(ARROWS[0])` in main.c: the arrow table has 8
entries (index 0 plus seven arrow bitmaps). -/
def ARROWS_COUNT : Nat := 8

/-- The arrow test in `update_displayed_xdrip_data`: an arrow bitmap is shown
iff `s_arrow_index > 0 && s_arrow_index < sizeof(ARROWS)/sizeof(ARROWS[0])`;
otherwise the bitmap layer is set to NULL (no arrow). -/
def shows_arrow (idx : Nat) : Bool :=
  decide (0 < idx) && decide (idx < ARROWS_COUNT)

/-- The text produced by `update_displayed_time_ago` when it runs:
`minutes_ago = (time(NULL) - s_bg_timestamp) / 60` (C int division, truncation toward zero), formatted
as minutes below one hour and as whole hours from one hour up. -/
def time_ago_text (now ts : Nat) : String :=
  let minutes_ago : Int := Int.tdiv ((now : Int) - (ts : Int)) 60
  if minutes_ago < 60 then toString minutes_ago ++ "m"
  else toString (Int.tdiv minutes_ago 60) ++ "h"

/-- `update_displayed_time_ago` in main.c as a transformer of the
`s_time_ago_buffer` contents: an early return leaves the buffer alone while
`s_bg_timestamp == 0`; otherwise `snprintf` with a 4-byte buffer stores at most
3 characters of the formatted text. -/
def update_displayed_time_ago (now ts : Nat) (buf : String) : String :=
  if ts = 0 then buf else (time_ago_text now ts).take 3

/-- An inbound AppMessage dictionary, restricted to the keys
`new_xdrip_data_callback` looks up with `dict_find`; a `none` field is an
absent key. String values are byte lists (contents before the terminating
NUL); `graph_data` is the raw byte array of the tuple. -/
structure Message where
  timestamp : Option Nat
  bg_string : Option (List Nat)
  arrow_index : Option Nat
  delta_string : Option (List Nat)
  graph_data : Option (List Nat)
  graph_high_line : Option Nat
  graph_low_line : Option Nat

/-- The watchface data globals mutated by `new_xdrip_data_callback`:
`s_bg_timestamp`, `s_bg_string` (char[5]), `s_delta_string` (char[6]),
`s_arrow_index`, `s_time_ago_buffer`, the graph series, and the two threshold
lines. -/
structure WatchState where
  bg_timestamp : Nat
  bg_string : Nat → Nat
  delta_string : Nat → Nat
  arrow_index : Nat
  time_ago_buffer : String
  graph : GraphSt
  graph_high_line : Nat
  graph_low_line : Nat

/-- `new_xdrip_data_callback` in main.c (extended revision). Without the
timestamp key nothing at all happens. With it, the timestamp is stored, each
optional field present is applied in source order (bg string, arrow, delta
string, graph payload, high line, low line), then `update_displayed_time_ago`
refreshes the time-ago buffer from the current wall clock `now`. -/
def new_xdrip_data_callback (now : Nat) (msg : Message) (s : WatchState) : WatchState :=
  match msg.timestamp with
  | none => s
  | some ts =>
    let s := { s with bg_timestamp := ts }
    let s :=
      match msg.bg_string with
      | some src => { s with bg_string := safe_strncpy s.bg_string src 5 }
      | none => s
    let s :=
      match msg.arrow_index with
      | some a => { s with arrow_index := a }
      | none => s
    let s :=
      match msg.delta_string with
      | some src => { s with delta_string := safe_strncpy s.delta_string src 6 }
      | none => s
    let s :=
      match msg.graph_data with
      | some data => { s with graph := decode_graph_ext data s.graph }
      | none => s
    let s :=
      match msg.graph_high_line with
      | some v => { s with graph_high_line := v }
      | none => s
    let s :=
      match msg.graph_low_line with
      | some v => { s with graph_low_line := v }
      | none => s
    { s with time_ago_buffer := update_displayed_time_ago now s.bg_timestamp s.time_ago_buffer }

/-- Characterization of `new_xdrip_data_callback` on a data message (timestamp
key present): each field of the result in terms of the message and prior
state. -/
theorem new_xdrip_data_callback_eq (now : Nat) (msg : Message) (s : WatchState) (ts : Nat)
    (h : msg.timestamp = some ts) :
    new_xdrip_data_callback now msg s =
      { bg_timestamp := ts
        bg_string :=
          match msg.bg_string with
          | some src => safe_strncpy s.bg_string src 5
          | none => s.bg_string
        delta_string :=
          match msg.delta_string with
          | some src => safe_strncpy s.delta_string src 6
          | none => s.delta_string
        arrow_index :=
          match msg.arrow_index with
          | some a => a
          | none => s.arrow_index
        time_ago_buffer := update_displayed_time_ago now ts s.time_ago_buffer
        graph :=
          match msg.graph_data with
          | some data => decode_graph_ext data s.graph
          | none => s.graph
        graph_high_line :=
          match msg.graph_high_line with
          | some v => v
          | none => s.graph_high_line
        graph_low_line :=
          match msg.graph_low_line with
          | some v => v
          | none => s.graph_low_line } := by
  obtain ⟨t, b, a, d, g, hi, lo⟩ := msg
  simp only at h
  subst h
  cases b <;> cases a <;> cases d <;> cases g <;> cases hi <;> cases lo <;> rfl

/-- On an accepted extended-revision payload with in-capacity declared count
`N`, the decode stores the header and both arrays. -/
theorem decode_graph_ext_accept (data : List Nat) (g : GraphSt) (N : Nat)
    (hN : le16 (data.getD 4 0) (data.getD 5 0) = N) (hcap : N ≤ MAX_GRAPH_POINTS)
    (hlen : 6 + N * 3 ≤ data.length) :
    decode_graph_ext data g =
      { ref_timestamp := le32 (data.getD 0 0) (data.getD 1 0) (data.getD 2 0) (data.getD 3 0)
        count := N
        offsets :=
          storeLoop (fun i => le16 (data.getD (6 + i * 2) 0) (data.getD (6 + i * 2 + 1) 0))
            N g.offsets
        bg_values := storeLoop (fun i => data.getD (6 + N * 2 + i) 0 * 2) N g.bg_values } := by
  have h6 : 6 ≤ data.length := by omega
  simp only [decode_graph_ext, hN]
  rw [if_pos h6, if_neg (Nat.not_lt.mpr hcap), if_pos hlen]

/-- On an extended-revision payload long enough for the header but too short
for the clamped count, the decode has still overwritten the header fields. -/
theorem decode_graph_ext_reject (data : List Nat) (g : GraphSt)
    (h6 : 6 ≤ data.length)
    (hlen : data.length <
      6 + (if MAX_GRAPH_POINTS < le16 (data.getD 4 0) (data.getD 5 0) then MAX_GRAPH_POINTS
           else le16 (data.getD 4 0) (data.getD 5 0)) * 3) :
    decode_graph_ext data g =
      { g with
        ref_timestamp := le32 (data.getD 0 0) (data.getD 1 0) (data.getD 2 0) (data.getD 3 0)
        count :=
          if MAX_GRAPH_POINTS < le16 (data.getD 4 0) (data.getD 5 0) then MAX_GRAPH_POINTS
          else le16 (data.getD 4 0) (data.getD 5 0) } := by
  simp only [decode_graph_ext]
  rw [if_pos h6, if_neg (by omega)]

/-- On an accepted compact-revision payload with in-capacity declared count
`N`, the decode stores the header and both arrays. -/
theorem decode_graph_v1_accept (data : List Nat) (g : GraphSt) (N : Nat)
    (hN : data.getD 4 0 = N) (hcap : N ≤ MAX_GRAPH_POINTS_V1)
    (hlen : 5 + N * 2 ≤ data.length) :
    decode_graph_v1 data g =
      { ref_timestamp := le32 (data.getD 0 0) (data.getD 1 0) (data.getD 2 0) (data.getD 3 0)
        count := N
        offsets := storeLoop (fun i => data.getD (5 + i) 0) N g.offsets
        bg_values := storeLoop (fun i => data.getD (5 + N + i) 0 * 2) N g.bg_values } := by
  have h5 : 5 ≤ data.length := by omega
  simp only [decode_graph_v1, hN]
  rw [if_pos h5, if_neg (Nat.not_lt.mpr hcap), if_pos hlen]

/-- On a compact-revision payload long enough for the header but too short for
the clamped count, the decode has still overwritten the header fields. -/
theorem decode_graph_v1_reject (data : List Nat) (g : GraphSt)
    (h5 : 5 ≤ data.length)
    (hlen : data.length <
      5 + (if MAX_GRAPH_POINTS_V1 < data.getD 4 0 then MAX_GRAPH_POINTS_V1
           else data.getD 4 0) * 2) :
    decode_graph_v1 data g =
      { g with
        ref_timestamp := le32 (data.getD 0 0) (data.getD 1 0) (data.getD 2 0) (data.getD 3 0)
        count :=
          if MAX_GRAPH_POINTS_V1 < data.getD 4 0 then MAX_GRAPH_POINTS_V1
          else data.getD 4 0 } := by
  simp only [decode_graph_v1]
  rw [if_pos h5, if_neg (by omega)]

/-- Every payload index the extended-revision decode reads is inside the
payload and below the clamped expected size. -/
theorem payload_reads_ext_inbounds (data : List Nat) :
    ∀ j ∈ graph_payload_reads_ext data, j < data.length ∧ j < 6 + MAX_GRAPH_POINTS * 3 := by
  intro j hj
  unfold graph_payload_reads_ext at hj
  by_cases h6 : 6 ≤ data.length
  · rw [if_pos h6] at hj
    have hcap : (if MAX_GRAPH_POINTS < le16 (data.getD 4 0) (data.getD 5 0) then MAX_GRAPH_POINTS
        else le16 (data.getD 4 0) (data.getD 5 0)) ≤ MAX_GRAPH_POINTS := by
      split <;> omega
    rcases List.mem_append.mp hj with h | h
    · have : j = 0 ∨ j = 1 ∨ j = 2 ∨ j = 3 ∨ j = 4 ∨ j = 5 := by simpa using h
      simp only [MAX_GRAPH_POINTS]
      omega
    · by_cases hacc : 6 + (if MAX_GRAPH_POINTS < le16 (data.getD 4 0) (data.getD 5 0)
          then MAX_GRAPH_POINTS else le16 (data.getD 4 0) (data.getD 5 0)) * 3 ≤ data.length
      · rw [if_pos hacc] at h
        rcases List.mem_append.mp h with h | h
        · obtain ⟨i, hi, hji⟩ := List.mem_flatMap.mp h
          rw [List.mem_range] at hi
          have : j = 6 + i * 2 ∨ j = 6 + i * 2 + 1 := by simpa using hji
          omega
        · obtain ⟨i, hi, rfl⟩ := List.mem_map.mp h
          rw [List.mem_range] at hi
          omega
      · rw [if_neg hacc] at h
        cases h
  · rw [if_neg h6] at hj
    cases hj

/-- Every payload index the compact-revision decode reads is inside the
payload and below the clamped expected size. -/
theorem payload_reads_v1_inbounds (data : List Nat) :
    ∀ j ∈ graph_payload_reads_v1 data, j < data.length ∧ j < 5 + MAX_GRAPH_POINTS_V1 * 2 := by
  intro j hj
  unfold graph_payload_reads_v1 at hj
  by_cases h5 : 5 ≤ data.length
  · rw [if_pos h5] at hj
    have hcap : (if MAX_GRAPH_POINTS_V1 < data.getD 4 0 then MAX_GRAPH_POINTS_V1
        else data.getD 4 0) ≤ MAX_GRAPH_POINTS_V1 := by
      split <;> omega
    rcases List.mem_append.mp hj with h | h
    · have : j = 0 ∨ j = 1 ∨ j = 2 ∨ j = 3 ∨ j = 4 := by simpa using h
      simp only [MAX_GRAPH_POINTS_V1]
      omega
    · by_cases hacc : 5 + (if MAX_GRAPH_POINTS_V1 < data.getD 4 0
          then MAX_GRAPH_POINTS_V1 else data.getD 4 0) * 2 ≤ data.length
      · rw [if_pos hacc] at h
        rcases List.mem_append.mp h with h | h
        · obtain ⟨i, hi, rfl⟩ := List.mem_map.mp h
          rw [List.mem_range] at hi
          omega
        · obtain ⟨i, hi, rfl⟩ := List.mem_map.mp h
          rw [List.mem_range] at hi
          omega
      · rw [if_neg hacc] at h
        cases h
  · rw [if_neg h5] at hj
    cases hj

/-- Every array index written by the extended-revision decode loops is below
the capacity. -/
theorem array_writes_ext_inbounds (data : List Nat) :
    ∀ j ∈ graph_array_writes_ext data, j < MAX_GRAPH_POINTS := by
  intro j hj
  unfold graph_array_writes_ext at hj
  by_cases h6 : 6 ≤ data.length
  · rw [if_pos h6] at hj
    have hcap : (if MAX_GRAPH_POINTS < le16 (data.getD 4 0) (data.getD 5 0) then MAX_GRAPH_POINTS
        else le16 (data.getD 4 0) (data.getD 5 0)) ≤ MAX_GRAPH_POINTS := by
      split <;> omega
    by_cases hacc : 6 + (if MAX_GRAPH_POINTS < le16 (data.getD 4 0) (data.getD 5 0)
        then MAX_GRAPH_POINTS else le16 (data.getD 4 0) (data.getD 5 0)) * 3 ≤ data.length
    · rw [if_pos hacc] at hj
      rcases List.mem_append.mp hj with h | h <;> rw [List.mem_range] at h <;> omega
    · rw [if_neg hacc] at hj
      cases hj
  · rw [if_neg h6] at hj
    cases hj

/-- Every array index written by the compact-revision decode loops is below
the capacity. -/
theorem array_writes_v1_inbounds (data : List Nat) :
    ∀ j ∈ graph_array_writes_v1 data, j < MAX_GRAPH_POINTS_V1 := by
  intro j hj
  unfold graph_array_writes_v1 at hj
  by_cases h5 : 5 ≤ data.length
  · rw [if_pos h5] at hj
    have hcap : (if MAX_GRAPH_POINTS_V1 < data.getD 4 0 then MAX_GRAPH_POINTS_V1
        else data.getD 4 0) ≤ MAX_GRAPH_POINTS_V1 := by
      split <;> omega
    by_cases hacc : 5 + (if MAX_GRAPH_POINTS_V1 < data.getD 4 0
        then MAX_GRAPH_POINTS_V1 else data.getD 4 0) * 2 ≤ data.length
    · rw [if_pos hacc] at hj
      rcases List.mem_append.mp hj with h | h <;> rw [List.mem_range] at h <;> omega
    · rw [if_neg hacc] at hj
      cases hj
  · rw [if_neg h5] at hj
    cases hj

/-- A concrete prior graph series used as "whatever it was before" in
concrete scenarios. -/
def g_prev : GraphSt :=
  { ref_timestamp := 5, count := 1, offsets := fun _ => 7, bg_values := fun _ => 9 }

/-- A concrete prior watch state used in concrete scenarios. -/
def watch_prev : WatchState :=
  { bg_timestamp := 42
    bg_string := fun _ => 1
    delta_string := fun _ => 2
    arrow_index := 3
    time_ago_buffer := "5m"
    graph := g_prev
    graph_high_line := 180
    graph_low_line := 72 }

/-- C1 (status: code bug). The claim says the graph decode performs only
in-bounds accesses for every payload, in particular for an accepted payload
declaring 0 points. The code violates this: the 6-byte payload of all zeroes
passes both length checks with `s_graph_count = 0`, and the success-path
logging then reads `s_graph_offsets[s_graph_count - 1]` and
`s_graph_bg_values[s_graph_count - 1]`, i.e. index `-1`, outside both arrays. -/
theorem count_zero_success_log_reads_negative_index :
    (-1 : Int) ∈ graph_array_reads_ext [0, 0, 0, 0, 0, 0] ∧
      ¬ (0 : Int) ≤ (-1 : Int) ∧ graph_accepted_ext [0, 0, 0, 0, 0, 0] = true := by
  decide

/-- C2 counterexample. The concrete compact-revision payload delivered with
declared length 5 (the 4 timestamp bytes 1000 LE plus the count byte 2,
shorter than the required 9) is rejected at the length check, yet the decode
has already overwritten the graph reference timestamp (5 becomes 1000), so
the previous GraphSeries is not left completely untouched. -/
theorem truncated_payload_still_overwrites_header :
    (decode_graph_v1 [232, 3, 0, 0, 2] g_prev).ref_timestamp ≠ g_prev.ref_timestamp ∧
      (decode_graph_v1 [232, 3, 0, 0, 2] g_prev).count ≠ g_prev.count := by
  decide

/-- C2 as amended: a payload rejected for being shorter than the fixed header
leaves the graph series completely untouched, while a payload rejected at the
expected-length check leaves the offset and value arrays untouched but has
already overwritten the reference timestamp and the (clamped) count; this
holds in both wire revisions. -/
theorem graph_reject_preserves_arrays (dE dC dE2 dC2 : List Nat) (gE gC gE2 gC2 : GraphSt)
    (hE6 : 6 ≤ dE.length)
    (hEr : dE.length <
      6 + (if MAX_GRAPH_POINTS < le16 (dE.getD 4 0) (dE.getD 5 0) then MAX_GRAPH_POINTS
           else le16 (dE.getD 4 0) (dE.getD 5 0)) * 3)
    (hC5 : 5 ≤ dC.length)
    (hCr : dC.length <
      5 + (if MAX_GRAPH_POINTS_V1 < dC.getD 4 0 then MAX_GRAPH_POINTS_V1
           else dC.getD 4 0) * 2)
    (hE2 : dE2.length < 6) (hC2 : dC2.length < 5) :
    (decode_graph_ext dE gE).offsets = gE.offsets ∧
    (decode_graph_ext dE gE).bg_values = gE.bg_values ∧
    (decode_graph_ext dE gE).ref_timestamp =
      le32 (dE.getD 0 0) (dE.getD 1 0) (dE.getD 2 0) (dE.getD 3 0) ∧
    (decode_graph_ext dE gE).count =
      (if MAX_GRAPH_POINTS < le16 (dE.getD 4 0) (dE.getD 5 0) then MAX_GRAPH_POINTS
       else le16 (dE.getD 4 0) (dE.getD 5 0)) ∧
    (decode_graph_v1 dC gC).offsets = gC.offsets ∧
    (decode_graph_v1 dC gC).bg_values = gC.bg_values ∧
    (decode_graph_v1 dC gC).ref_timestamp =
      le32 (dC.getD 0 0) (dC.getD 1 0) (dC.getD 2 0) (dC.getD 3 0) ∧
    (decode_graph_v1 dC gC).count =
      (if MAX_GRAPH_POINTS_V1 < dC.getD 4 0 then MAX_GRAPH_POINTS_V1 else dC.getD 4 0) ∧
    decode_graph_ext dE2 gE2 = gE2 ∧
    decode_graph_v1 dC2 gC2 = gC2 := by
  have hE := decode_graph_ext_reject dE gE hE6 hEr
  have hC := decode_graph_v1_reject dC gC hC5 hCr
  have hE2e : decode_graph_ext dE2 gE2 = gE2 := by
    simp only [decode_graph_ext]
    rw [if_neg (by omega)]
  have hC2e : decode_graph_v1 dC2 gC2 = gC2 := by
    simp only [decode_graph_v1]
    rw [if_neg (by omega)]
  rw [hE, hC]
  exact ⟨rfl, rfl, rfl, rfl, rfl, rfl, rfl, rfl, hE2e, hC2e⟩

/-- Witness for the amended C2: the compact 5-byte truncation of the concrete
payload, an extended payload declaring 1 point with only a header present, and
headerless payloads in both revisions. -/
theorem graph_reject_preserves_arrays_witness :
    6 ≤ ([0, 0, 0, 0, 1, 0] : List Nat).length ∧
    ([0, 0, 0, 0, 1, 0] : List Nat).length <
      6 + (if MAX_GRAPH_POINTS < le16 (([0, 0, 0, 0, 1, 0] : List Nat).getD 4 0)
              (([0, 0, 0, 0, 1, 0] : List Nat).getD 5 0) then MAX_GRAPH_POINTS
           else le16 (([0, 0, 0, 0, 1, 0] : List Nat).getD 4 0)
              (([0, 0, 0, 0, 1, 0] : List Nat).getD 5 0)) * 3 ∧
    5 ≤ ([232, 3, 0, 0, 2] : List Nat).length ∧
    ([232, 3, 0, 0, 2] : List Nat).length <
      5 + (if MAX_GRAPH_POINTS_V1 < ([232, 3, 0, 0, 2] : List Nat).getD 4 0
           then MAX_GRAPH_POINTS_V1 else ([232, 3, 0, 0, 2] : List Nat).getD 4 0) * 2 ∧
    ([1, 2, 3] : List Nat).length < 6 ∧
    ([] : List Nat).length < 5 ∧
    (decode_graph_ext [0, 0, 0, 0, 1, 0] g_prev).offsets = g_prev.offsets ∧
    (decode_graph_ext [0, 0, 0, 0, 1, 0] g_prev).bg_values = g_prev.bg_values ∧
    (decode_graph_ext [0, 0, 0, 0, 1, 0] g_prev).ref_timestamp =
      le32 (([0, 0, 0, 0, 1, 0] : List Nat).getD 0 0) (([0, 0, 0, 0, 1, 0] : List Nat).getD 1 0)
        (([0, 0, 0, 0, 1, 0] : List Nat).getD 2 0) (([0, 0, 0, 0, 1, 0] : List Nat).getD 3 0) ∧
    (decode_graph_ext [0, 0, 0, 0, 1, 0] g_prev).count =
      (if MAX_GRAPH_POINTS < le16 (([0, 0, 0, 0, 1, 0] : List Nat).getD 4 0)
          (([0, 0, 0, 0, 1, 0] : List Nat).getD 5 0) then MAX_GRAPH_POINTS
       else le16 (([0, 0, 0, 0, 1, 0] : List Nat).getD 4 0)
          (([0, 0, 0, 0, 1, 0] : List Nat).getD 5 0)) ∧
    (decode_graph_v1 [232, 3, 0, 0, 2] g_prev).offsets = g_prev.offsets ∧
    (decode_graph_v1 [232, 3, 0, 0, 2] g_prev).bg_values = g_prev.bg_values ∧
    (decode_graph_v1 [232, 3, 0, 0, 2] g_prev).ref_timestamp =
      le32 (([232, 3, 0, 0, 2] : List Nat).getD 0 0) (([232, 3, 0, 0, 2] : List Nat).getD 1 0)
        (([232, 3, 0, 0, 2] : List Nat).getD 2 0) (([232, 3, 0, 0, 2] : List Nat).getD 3 0) ∧
    (decode_graph_v1 [232, 3, 0, 0, 2] g_prev).count =
      (if MAX_GRAPH_POINTS_V1 < ([232, 3, 0, 0, 2] : List Nat).getD 4 0
       then MAX_GRAPH_POINTS_V1 else ([232, 3, 0, 0, 2] : List Nat).getD 4 0) ∧
    decode_graph_ext [1, 2, 3] g_prev = g_prev ∧
    decode_graph_v1 [] g_prev = g_prev := by
  refine ⟨by decide, by decide, by decide, by decide, by decide, by decide, ?_⟩
  exact graph_reject_preserves_arrays [0, 0, 0, 0, 1, 0] [232, 3, 0, 0, 2] [1, 2, 3] []
    g_prev g_prev g_prev g_prev (by decide) (by decide) (by decide) (by decide)
    (by decide) (by decide)

/-- C5: a message without the timestamp key is a complete no-op: the reading
fields, the graph series, and both thresholds are all left unchanged. -/
theorem no_timestamp_key_noop (now : Nat) (msg : Message) (s : WatchState)
    (h : msg.timestamp = none) : new_xdrip_data_callback now msg s = s := by
  simp [new_xdrip_data_callback, h]

/-- Witness for C5: a concrete heartbeat message with no keys at all leaves a
concrete prior state unchanged. -/
theorem no_timestamp_key_noop_witness :
    (Message.mk none none none none none none none).timestamp = none ∧
    new_xdrip_data_callback 1000 (Message.mk none none none none none none none) watch_prev =
      watch_prev :=
  ⟨rfl, no_timestamp_key_noop 1000 (Message.mk none none none none none none none) watch_prev rfl⟩

/-- C6: for capacity `c > 0`, `safe_strncpy` stores the first
`min (length src) (c - 1)` source characters, then a NUL terminator; all its
writes land strictly below index `c`, and indices from `c` on keep their old
contents. -/
theorem safe_strncpy_spec (dest : Nat → Nat) (src : List Nat) (c : Nat) (hc : 0 < c) :
    (∀ i, i < min src.length (c - 1) → safe_strncpy dest src c i = src.getD i 0) ∧
    safe_strncpy dest src c (min src.length (c - 1)) = 0 ∧
    (∀ j ∈ safe_strncpy_writes c, j < c) ∧
    (∀ i, c ≤ i → safe_strncpy dest src c i = dest i) := by
  simp only [safe_strncpy, strncpy_write, safe_strncpy_writes, hc, if_true]
  refine ⟨?_, ?_, ?_, ?_⟩
  · intro i hi
    rw [if_neg (by omega), if_pos (by omega), if_pos (by omega)]
  · split_ifs <;> omega
  · intro j hj
    have : j < c ∨ j = c - 1 := by simpa using hj
    omega
  · intro i hi
    rw [if_neg (by omega), if_neg (by omega)]

/-- Witness for C6: the 5-byte bg buffer with an 8-character source is
truncated to 4 characters plus terminator, and nothing at index 5 or beyond is
touched. -/
theorem safe_strncpy_spec_witness :
    0 < 5 ∧
    ((∀ i, i < min ([49, 50, 51, 52, 53, 54, 55, 56] : List Nat).length (5 - 1) →
        safe_strncpy (fun _ => 111) [49, 50, 51, 52, 53, 54, 55, 56] 5 i =
          ([49, 50, 51, 52, 53, 54, 55, 56] : List Nat).getD i 0) ∧
      safe_strncpy (fun _ => 111) [49, 50, 51, 52, 53, 54, 55, 56] 5
        (min ([49, 50, 51, 52, 53, 54, 55, 56] : List Nat).length (5 - 1)) = 0 ∧
      (∀ j ∈ safe_strncpy_writes 5, j < 5) ∧
      (∀ i, 5 ≤ i → safe_strncpy (fun _ => 111) [49, 50, 51, 52, 53, 54, 55, 56] 5 i = 111)) :=
  ⟨by decide, safe_strncpy_spec (fun _ => 111) [49, 50, 51, 52, 53, 54, 55, 56] 5 (by decide)⟩

/-- C7: a graph payload shorter than the fixed header (6 bytes extended,
5 bytes compact) leaves every field of the graph series unchanged, and the
decode reads no payload byte at all. -/
theorem short_header_noop (dE dC : List Nat) (gE gC : GraphSt)
    (hE : dE.length < 6) (hC : dC.length < 5) :
    decode_graph_ext dE gE = gE ∧ graph_payload_reads_ext dE = [] ∧
    decode_graph_v1 dC gC = gC ∧ graph_payload_reads_v1 dC = [] := by
  refine ⟨?_, ?_, ?_, ?_⟩
  · simp only [decode_graph_ext]
    rw [if_neg (by omega)]
  · simp only [graph_payload_reads_ext]
    rw [if_neg (by omega)]
  · simp only [decode_graph_v1]
    rw [if_neg (by omega)]
  · simp only [graph_payload_reads_v1]
    rw [if_neg (by omega)]

/-- Witness for C7: 3-byte and 4-byte payloads are complete no-ops in the
extended and compact revisions respectively. -/
theorem short_header_noop_witness :
    ([10, 20, 30] : List Nat).length < 6 ∧ ([1, 2, 3, 4] : List Nat).length < 5 ∧
    (decode_graph_ext [10, 20, 30] g_prev = g_prev ∧
      graph_payload_reads_ext [10, 20, 30] = [] ∧
      decode_graph_v1 [1, 2, 3, 4] g_prev = g_prev ∧
      graph_payload_reads_v1 [1, 2, 3, 4] = []) :=
  ⟨by decide, by decide,
    short_header_noop [10, 20, 30] [1, 2, 3, 4] g_prev g_prev (by decide) (by decide)⟩

/-- C3: on a well-formed payload (declared count within capacity, actual
length at least the expected size) the decode stores the little-endian
reference timestamp from bytes 0..3, the declared count, the i-th offset entry
for each i, and each value byte multiplied by 2, in both wire revisions. -/
theorem wellformed_graph_decode (dE dC : List Nat) (gE gC : GraphSt) (NE NC : Nat)
    (hEb : ∀ b ∈ dE, b < 256)
    (hEN : le16 (dE.getD 4 0) (dE.getD 5 0) = NE)
    (hENcap : NE ≤ MAX_GRAPH_POINTS)
    (hElen : 6 + NE * 3 ≤ dE.length)
    (hCb : ∀ b ∈ dC, b < 256)
    (hCN : dC.getD 4 0 = NC)
    (hCNcap : NC ≤ MAX_GRAPH_POINTS_V1)
    (hClen : 5 + NC * 2 ≤ dC.length) :
    (decode_graph_ext dE gE).ref_timestamp =
      dE.getD 0 0 + dE.getD 1 0 * 256 + dE.getD 2 0 * 65536 + dE.getD 3 0 * 16777216 ∧
    (decode_graph_ext dE gE).count = NE ∧
    (∀ i, i < NE → (decode_graph_ext dE gE).offsets i =
      dE.getD (6 + i * 2) 0 + dE.getD (6 + i * 2 + 1) 0 * 256) ∧
    (∀ i, i < NE → (decode_graph_ext dE gE).bg_values i = dE.getD (6 + NE * 2 + i) 0 * 2) ∧
    (decode_graph_v1 dC gC).ref_timestamp =
      dC.getD 0 0 + dC.getD 1 0 * 256 + dC.getD 2 0 * 65536 + dC.getD 3 0 * 16777216 ∧
    (decode_graph_v1 dC gC).count = NC ∧
    (∀ i, i < NC → (decode_graph_v1 dC gC).offsets i = dC.getD (5 + i) 0) ∧
    (∀ i, i < NC → (decode_graph_v1 dC gC).bg_values i = dC.getD (5 + NC + i) 0 * 2) := by
  have hdE := decode_graph_ext_accept dE gE NE hEN hENcap hElen
  have hdC := decode_graph_v1_accept dC gC NC hCN hCNcap hClen
  refine ⟨?_, ?_, ?_, ?_, ?_, ?_, ?_, ?_⟩
  · rw [hdE]
    exact le32_eq _ _ _ _ (getD_lt_256 dE hEb 0) (getD_lt_256 dE hEb 1) (getD_lt_256 dE hEb 2)
  · rw [hdE]
  · intro i hi
    rw [hdE]
    show storeLoop _ NE gE.offsets i = _
    rw [storeLoop_eq, if_pos hi]
    exact le16_eq _ _ (getD_lt_256 dE hEb (6 + i * 2))
  · intro i hi
    rw [hdE]
    show storeLoop _ NE gE.bg_values i = _
    rw [storeLoop_eq, if_pos hi]
  · rw [hdC]
    exact le32_eq _ _ _ _ (getD_lt_256 dC hCb 0) (getD_lt_256 dC hCb 1) (getD_lt_256 dC hCb 2)
  · rw [hdC]
  · intro i hi
    rw [hdC]
    show storeLoop _ NC gC.offsets i = _
    rw [storeLoop_eq, if_pos hi]
  · intro i hi
    rw [hdC]
    show storeLoop _ NC gC.bg_values i = _
    rw [storeLoop_eq, if_pos hi]

/-- The concrete well-formed payload of the spec in the extended wire layout:
ref_ts = 1000 LE32, count = 2 LE16, offsets 0 and 5 LE16, values 50 and 60. -/
def sample_ext : List Nat := [232, 3, 0, 0, 2, 0, 0, 0, 5, 0, 50, 60]

/-- The concrete well-formed payload of the spec in the compact wire layout:
ref_ts = 1000 LE32, count byte 2, offset bytes 0 and 5, value bytes 50 and
60. -/
def sample_v1 : List Nat := [232, 3, 0, 0, 2, 0, 5, 50, 60]

/-- Witness for C3 at the spec's concrete payload (ref_ts 1000, two points):
both revisions decode reference timestamp 232 + 3·256 = 1000, count 2, offsets
0 and 5, and values 50·2 = 100 and 60·2 = 120. -/
theorem wellformed_graph_decode_witness :
    (∀ b ∈ sample_ext, b < 256) ∧
    le16 (sample_ext.getD 4 0) (sample_ext.getD 5 0) = 2 ∧
    2 ≤ MAX_GRAPH_POINTS ∧ 6 + 2 * 3 ≤ sample_ext.length ∧
    (∀ b ∈ sample_v1, b < 256) ∧
    sample_v1.getD 4 0 = 2 ∧ 2 ≤ MAX_GRAPH_POINTS_V1 ∧ 5 + 2 * 2 ≤ sample_v1.length ∧
    ((decode_graph_ext sample_ext g_prev).ref_timestamp =
      sample_ext.getD 0 0 + sample_ext.getD 1 0 * 256 + sample_ext.getD 2 0 * 65536 +
        sample_ext.getD 3 0 * 16777216 ∧
    (decode_graph_ext sample_ext g_prev).count = 2 ∧
    (∀ i, i < 2 → (decode_graph_ext sample_ext g_prev).offsets i =
      sample_ext.getD (6 + i * 2) 0 + sample_ext.getD (6 + i * 2 + 1) 0 * 256) ∧
    (∀ i, i < 2 → (decode_graph_ext sample_ext g_prev).bg_values i =
      sample_ext.getD (6 + 2 * 2 + i) 0 * 2) ∧
    (decode_graph_v1 sample_v1 g_prev).ref_timestamp =
      sample_v1.getD 0 0 + sample_v1.getD 1 0 * 256 + sample_v1.getD 2 0 * 65536 +
        sample_v1.getD 3 0 * 16777216 ∧
    (decode_graph_v1 sample_v1 g_prev).count = 2 ∧
    (∀ i, i < 2 → (decode_graph_v1 sample_v1 g_prev).offsets i = sample_v1.getD (5 + i) 0) ∧
    (∀ i, i < 2 → (decode_graph_v1 sample_v1 g_prev).bg_values i =
      sample_v1.getD (5 + 2 + i) 0 * 2)) :=
  ⟨by decide, by decide, by decide, by decide, by decide, by decide, by decide, by decide,
    wellformed_graph_decode sample_ext sample_v1 g_prev g_prev 2 2 (by decide) (by decide)
      (by decide) (by decide) (by decide) (by decide) (by decide) (by decide)⟩

/-- C4: a declared count above the capacity is silently clamped (300 extended,
60 compact); the message is never rejected solely for the oversize (a payload
at least as long as the clamped expected size is accepted); every payload read
stays below the clamped expected size and inside the payload; every array
write stays below the capacity; and the success-path array reads of the
extended decoder stay within the clamped bounds. -/
theorem oversized_count_clamped (dE dC : List Nat) (gE gC : GraphSt) (NE NC : Nat)
    (hEN : le16 (dE.getD 4 0) (dE.getD 5 0) = NE) (hENover : MAX_GRAPH_POINTS < NE)
    (hE6 : 6 ≤ dE.length)
    (hCN : dC.getD 4 0 = NC) (hCNover : MAX_GRAPH_POINTS_V1 < NC) (hC5 : 5 ≤ dC.length) :
    (decode_graph_ext dE gE).count = MAX_GRAPH_POINTS ∧
    (6 + MAX_GRAPH_POINTS * 3 ≤ dE.length → graph_accepted_ext dE = true) ∧
    (∀ j ∈ graph_payload_reads_ext dE, j < 6 + MAX_GRAPH_POINTS * 3 ∧ j < dE.length) ∧
    (∀ j ∈ graph_array_writes_ext dE, j < MAX_GRAPH_POINTS) ∧
    (∀ j ∈ graph_array_reads_ext dE, 0 ≤ j ∧ j < (MAX_GRAPH_POINTS : Int)) ∧
    (decode_graph_v1 dC gC).count = MAX_GRAPH_POINTS_V1 ∧
    (5 + MAX_GRAPH_POINTS_V1 * 2 ≤ dC.length → graph_accepted_v1 dC = true) ∧
    (∀ j ∈ graph_payload_reads_v1 dC, j < 5 + MAX_GRAPH_POINTS_V1 * 2 ∧ j < dC.length) ∧
    (∀ j ∈ graph_array_writes_v1 dC, j < MAX_GRAPH_POINTS_V1) := by
  refine ⟨?_, ?_, ?_, array_writes_ext_inbounds dE, ?_, ?_, ?_, ?_, array_writes_v1_inbounds dC⟩
  · simp only [decode_graph_ext, hEN]
    rw [if_pos hE6, if_pos hENover]
    split <;> rfl
  · intro hlen
    simp only [graph_accepted_ext, hEN]
    rw [if_pos hE6, if_pos hENover]
    exact decide_eq_true hlen
  · intro j hj
    have h := payload_reads_ext_inbounds dE j hj
    exact ⟨h.2, h.1⟩
  · intro j hj
    simp only [graph_array_reads_ext, hEN] at hj
    rw [if_pos hE6, if_pos hENover] at hj
    simp only [MAX_GRAPH_POINTS] at hj ⊢
    split at hj
    · have : j = 0 ∨ j = (300 : Int) - 1 := by simpa using hj
      omega
    · cases hj
  · simp only [decode_graph_v1, hCN]
    rw [if_pos hC5, if_pos hCNover]
    split <;> rfl
  · intro hlen
    simp only [graph_accepted_v1, hCN]
    rw [if_pos hC5, if_pos hCNover]
    exact decide_eq_true hlen
  · intro j hj
    have h := payload_reads_v1_inbounds dC j hj
    exact ⟨h.2, h.1⟩

/-- An extended-revision payload declaring 333 points (over the 300 capacity)
with exactly the clamped expected length 906. -/
def oversized_ext : List Nat := [0, 0, 0, 0, 77, 1] ++ List.replicate 900 0

/-- A compact-revision payload declaring 200 points (over the 60 capacity)
with exactly the clamped expected length 125. -/
def oversized_v1 : List Nat := [0, 0, 0, 0, 200] ++ List.replicate 120 0

set_option maxRecDepth 100000

/-- Witness for C4: the declared counts 333 (extended, 77 + 1·256) and 200
(compact) are clamped to 300 and 60, and the payloads of clamped expected
length are accepted with all accesses inside the clamped bounds. -/
theorem oversized_count_clamped_witness :
    le16 (oversized_ext.getD 4 0) (oversized_ext.getD 5 0) = 333 ∧
    MAX_GRAPH_POINTS < 333 ∧ 6 ≤ oversized_ext.length ∧
    oversized_v1.getD 4 0 = 200 ∧ MAX_GRAPH_POINTS_V1 < 200 ∧ 5 ≤ oversized_v1.length ∧
    ((decode_graph_ext oversized_ext g_prev).count = MAX_GRAPH_POINTS ∧
    (6 + MAX_GRAPH_POINTS * 3 ≤ oversized_ext.length → graph_accepted_ext oversized_ext = true) ∧
    (∀ j ∈ graph_payload_reads_ext oversized_ext,
      j < 6 + MAX_GRAPH_POINTS * 3 ∧ j < oversized_ext.length) ∧
    (∀ j ∈ graph_array_writes_ext oversized_ext, j < MAX_GRAPH_POINTS) ∧
    (∀ j ∈ graph_array_reads_ext oversized_ext, 0 ≤ j ∧ j < (MAX_GRAPH_POINTS : Int)) ∧
    (decode_graph_v1 oversized_v1 g_prev).count = MAX_GRAPH_POINTS_V1 ∧
    (5 + MAX_GRAPH_POINTS_V1 * 2 ≤ oversized_v1.length → graph_accepted_v1 oversized_v1 = true) ∧
    (∀ j ∈ graph_payload_reads_v1 oversized_v1,
      j < 5 + MAX_GRAPH_POINTS_V1 * 2 ∧ j < oversized_v1.length) ∧
    (∀ j ∈ graph_array_writes_v1 oversized_v1, j < MAX_GRAPH_POINTS_V1)) :=
  ⟨by decide, by decide, by decide, by decide, by decide, by decide,
    oversized_count_clamped oversized_ext oversized_v1 g_prev g_prev 333 200
      (by decide) (by decide) (by decide) (by decide) (by decide) (by decide)⟩

/-- C8: the field decoder stores the received arrow index byte unmodified,
and the renderer's arrow test shows no arrow exactly when the stored index is
0 or at least the arrow-table length 8. -/
theorem arrow_stored_raw_and_render_range (now : Nat) (msg : Message) (s : WatchState)
    (ts a : Nat) (h : msg.timestamp = some ts) (ha : msg.arrow_index = some a) :
    (new_xdrip_data_callback now msg s).arrow_index = a ∧
    (∀ idx : Nat, shows_arrow idx = false ↔ idx = 0 ∨ ARROWS_COUNT ≤ idx) := by
  refine ⟨?_, ?_⟩
  · rw [new_xdrip_data_callback_eq now msg s ts h]
    simp [ha]
  · intro idx
    simp only [shows_arrow, ARROWS_COUNT, Bool.and_eq_false_iff, decide_eq_false_iff_not]
    omega

/-- Witness for C8: a message carrying the out-of-range arrow index 9 stores
the raw 9, and the render test maps it to "no arrow". -/
theorem arrow_stored_raw_and_render_range_witness :
    (Message.mk (some 1000) none (some 9) none none none none).timestamp = some 1000 ∧
    (Message.mk (some 1000) none (some 9) none none none none).arrow_index = some 9 ∧
    ((new_xdrip_data_callback 2000 (Message.mk (some 1000) none (some 9) none none none none)
        watch_prev).arrow_index = 9 ∧
      (∀ idx : Nat, shows_arrow idx = false ↔ idx = 0 ∨ ARROWS_COUNT ≤ idx)) :=
  ⟨rfl, rfl,
    arrow_stored_raw_and_render_range 2000
      (Message.mk (some 1000) none (some 9) none none none none) watch_prev 1000 9 rfl rfl⟩

/-- C9: on a data message, each optional field among bg string, delta string,
arrow index, high threshold and low threshold keeps its previous value when
its key is absent and is overwritten when its key is present. -/
theorem optional_field_merge (now : Nat) (msg : Message) (s : WatchState) (ts : Nat)
    (h : msg.timestamp = some ts) :
    ((msg.bg_string = none → (new_xdrip_data_callback now msg s).bg_string = s.bg_string) ∧
      (∀ src, msg.bg_string = some src →
        (new_xdrip_data_callback now msg s).bg_string = safe_strncpy s.bg_string src 5)) ∧
    ((msg.delta_string = none →
        (new_xdrip_data_callback now msg s).delta_string = s.delta_string) ∧
      (∀ src, msg.delta_string = some src →
        (new_xdrip_data_callback now msg s).delta_string = safe_strncpy s.delta_string src 6)) ∧
    ((msg.arrow_index = none →
        (new_xdrip_data_callback now msg s).arrow_index = s.arrow_index) ∧
      (∀ a, msg.arrow_index = some a → (new_xdrip_data_callback now msg s).arrow_index = a)) ∧
    ((msg.graph_high_line = none →
        (new_xdrip_data_callback now msg s).graph_high_line = s.graph_high_line) ∧
      (∀ v, msg.graph_high_line = some v →
        (new_xdrip_data_callback now msg s).graph_high_line = v)) ∧
    ((msg.graph_low_line = none →
        (new_xdrip_data_callback now msg s).graph_low_line = s.graph_low_line) ∧
      (∀ v, msg.graph_low_line = some v →
        (new_xdrip_data_callback now msg s).graph_low_line = v)) := by
  rw [new_xdrip_data_callback_eq now msg s ts h]
  refine ⟨⟨?_, ?_⟩, ⟨?_, ?_⟩, ⟨?_, ?_⟩, ⟨?_, ?_⟩, ⟨?_, ?_⟩⟩
  · intro hb
    simp [hb]
  · intro src hb
    simp [hb]
  · intro hd
    simp [hd]
  · intro src hd
    simp [hd]
  · intro hA
    simp [hA]
  · intro a hA
    simp [hA]
  · intro hh
    simp [hh]
  · intro v hh
    simp [hh]
  · intro hl
    simp [hl]
  · intro v hl
    simp [hl]

/-- Witness for C9: a data message with every optional key present overwrites
every corresponding field of a concrete prior state. -/
theorem optional_field_merge_witness :
    (Message.mk (some 1000) (some [49, 48, 48]) (some 4) (some [43, 53]) none (some 200)
        (some 80)).timestamp = some 1000 ∧
    (((Message.mk (some 1000) (some [49, 48, 48]) (some 4) (some [43, 53]) none (some 200)
          (some 80)).bg_string = none →
        (new_xdrip_data_callback 2000 (Message.mk (some 1000) (some [49, 48, 48]) (some 4)
            (some [43, 53]) none (some 200) (some 80)) watch_prev).bg_string =
          watch_prev.bg_string) ∧
      (∀ src, (Message.mk (some 1000) (some [49, 48, 48]) (some 4) (some [43, 53]) none (some 200)
          (some 80)).bg_string = some src →
        (new_xdrip_data_callback 2000 (Message.mk (some 1000) (some [49, 48, 48]) (some 4)
            (some [43, 53]) none (some 200) (some 80)) watch_prev).bg_string =
          safe_strncpy watch_prev.bg_string src 5)) ∧
    (((Message.mk (some 1000) (some [49, 48, 48]) (some 4) (some [43, 53]) none (some 200)
          (some 80)).delta_string = none →
        (new_xdrip_data_callback 2000 (Message.mk (some 1000) (some [49, 48, 48]) (some 4)
            (some [43, 53]) none (some 200) (some 80)) watch_prev).delta_string =
          watch_prev.delta_string) ∧
      (∀ src, (Message.mk (some 1000) (some [49, 48, 48]) (some 4) (some [43, 53]) none (some 200)
          (some 80)).delta_string = some src →
        (new_xdrip_data_callback 2000 (Message.mk (some 1000) (some [49, 48, 48]) (some 4)
            (some [43, 53]) none (some 200) (some 80)) watch_prev).delta_string =
          safe_strncpy watch_prev.delta_string src 6)) ∧
    (((Message.mk (some 1000) (some [49, 48, 48]) (some 4) (some [43, 53]) none (some 200)
          (some 80)).arrow_index = none →
        (new_xdrip_data_callback 2000 (Message.mk (some 1000) (some [49, 48, 48]) (some 4)
            (some [43, 53]) none (some 200) (some 80)) watch_prev).arrow_index =
          watch_prev.arrow_index) ∧
      (∀ a, (Message.mk (some 1000) (some [49, 48, 48]) (some 4) (some [43, 53]) none (some 200)
          (some 80)).arrow_index = some a →
        (new_xdrip_data_callback 2000 (Message.mk (some 1000) (some [49, 48, 48]) (some 4)
            (some [43, 53]) none (some 200) (some 80)) watch_prev).arrow_index = a)) ∧
    (((Message.mk (some 1000) (some [49, 48, 48]) (some 4) (some [43, 53]) none (some 200)
          (some 80)).graph_high_line = none →
        (new_xdrip_data_callback 2000 (Message.mk (some 1000) (some [49, 48, 48]) (some 4)
            (some [43, 53]) none (some 200) (some 80)) watch_prev).graph_high_line =
          watch_prev.graph_high_line) ∧
      (∀ v, (Message.mk (some 1000) (some [49, 48, 48]) (some 4) (some [43, 53]) none (some 200)
          (some 80)).graph_high_line = some v →
        (new_xdrip_data_callback 2000 (Message.mk (some 1000) (some [49, 48, 48]) (some 4)
            (some [43, 53]) none (some 200) (some 80)) watch_prev).graph_high_line = v)) ∧
    (((Message.mk (some 1000) (some [49, 48, 48]) (some 4) (some [43, 53]) none (some 200)
          (some 80)).graph_low_line = none →
        (new_xdrip_data_callback 2000 (Message.mk (some 1000) (some [49, 48, 48]) (some 4)
            (some [43, 53]) none (some 200) (some 80)) watch_prev).graph_low_line =
          watch_prev.graph_low_line) ∧
      (∀ v, (Message.mk (some 1000) (some [49, 48, 48]) (some 4) (some [43, 53]) none (some 200)
          (some 80)).graph_low_line = some v →
        (new_xdrip_data_callback 2000 (Message.mk (some 1000) (some [49, 48, 48]) (some 4)
            (some [43, 53]) none (some 200) (some 80)) watch_prev).graph_low_line = v)) :=
  ⟨rfl,
    optional_field_merge 2000
      (Message.mk (some 1000) (some [49, 48, 48]) (some 4) (some [43, 53]) none (some 200)
        (some 80)) watch_prev 1000 rfl⟩

/-- C10: a message whose timestamp key carries 0 stores 0 (the "never
received" sentinel), `update_displayed_time_ago` then leaves the time-ago
buffer untouched, and the other fields present in the same message are still
applied. -/
theorem timestamp_zero_sentinel (now : Nat) (msg : Message) (s : WatchState)
    (h : msg.timestamp = some 0) :
    (new_xdrip_data_callback now msg s).bg_timestamp = 0 ∧
    (new_xdrip_data_callback now msg s).time_ago_buffer = s.time_ago_buffer ∧
    (∀ n : Nat, ∀ b : String, update_displayed_time_ago n 0 b = b) ∧
    (∀ src, msg.bg_string = some src →
      (new_xdrip_data_callback now msg s).bg_string = safe_strncpy s.bg_string src 5) ∧
    (∀ a, msg.arrow_index = some a → (new_xdrip_data_callback now msg s).arrow_index = a) ∧
    (∀ src, msg.delta_string = some src →
      (new_xdrip_data_callback now msg s).delta_string = safe_strncpy s.delta_string src 6) ∧
    (∀ d, msg.graph_data = some d →
      (new_xdrip_data_callback now msg s).graph = decode_graph_ext d s.graph) ∧
    (∀ v, msg.graph_high_line = some v →
      (new_xdrip_data_callback now msg s).graph_high_line = v) ∧
    (∀ v, msg.graph_low_line = some v →
      (new_xdrip_data_callback now msg s).graph_low_line = v) := by
  rw [new_xdrip_data_callback_eq now msg s 0 h]
  refine ⟨rfl, ?_, ?_, ?_, ?_, ?_, ?_, ?_, ?_⟩
  · simp [update_displayed_time_ago]
  · intro n b
    simp [update_displayed_time_ago]
  · intro src hb
    simp [hb]
  · intro a hA
    simp [hA]
  · intro src hd
    simp [hd]
  · intro d hg
    simp [hg]
  · intro v hh
    simp [hh]
  · intro v hl
    simp [hl]

/-- Witness for C10: a message with timestamp 0 and a bg string, arrow, delta
and thresholds applied to a concrete prior state. -/
theorem timestamp_zero_sentinel_witness :
    (Message.mk (some 0) (some [45, 45, 45]) (some 2) (some [43, 49]) none (some 190)
        (some 70)).timestamp = some 0 ∧
    ((new_xdrip_data_callback 5000 (Message.mk (some 0) (some [45, 45, 45]) (some 2)
        (some [43, 49]) none (some 190) (some 70)) watch_prev).bg_timestamp = 0 ∧
      (new_xdrip_data_callback 5000 (Message.mk (some 0) (some [45, 45, 45]) (some 2)
        (some [43, 49]) none (some 190) (some 70)) watch_prev).time_ago_buffer =
        watch_prev.time_ago_buffer ∧
      (∀ n : Nat, ∀ b : String, update_displayed_time_ago n 0 b = b) ∧
      (∀ src, (Message.mk (some 0) (some [45, 45, 45]) (some 2) (some [43, 49]) none (some 190)
          (some 70)).bg_string = some src →
        (new_xdrip_data_callback 5000 (Message.mk (some 0) (some [45, 45, 45]) (some 2)
            (some [43, 49]) none (some 190) (some 70)) watch_prev).bg_string =
          safe_strncpy watch_prev.bg_string src 5) ∧
      (∀ a, (Message.mk (some 0) (some [45, 45, 45]) (some 2) (some [43, 49]) none (some 190)
          (some 70)).arrow_index = some a →
        (new_xdrip_data_callback 5000 (Message.mk (some 0) (some [45, 45, 45]) (some 2)
            (some [43, 49]) none (some 190) (some 70)) watch_prev).arrow_index = a) ∧
      (∀ src, (Message.mk (some 0) (some [45, 45, 45]) (some 2) (some [43, 49]) none (some 190)
          (some 70)).delta_string = some src →
        (new_xdrip_data_callback 5000 (Message.mk (some 0) (some [45, 45, 45]) (some 2)
            (some [43, 49]) none (some 190) (some 70)) watch_prev).delta_string =
          safe_strncpy watch_prev.delta_string src 6) ∧
      (∀ d, (Message.mk (some 0) (some [45, 45, 45]) (some 2) (some [43, 49]) none (some 190)
          (some 70)).graph_data = some d →
        (new_xdrip_data_callback 5000 (Message.mk (some 0) (some [45, 45, 45]) (some 2)
            (some [43, 49]) none (some 190) (some 70)) watch_prev).graph =
          decode_graph_ext d watch_prev.graph) ∧
      (∀ v, (Message.mk (some 0) (some [45, 45, 45]) (some 2) (some [43, 49]) none (some 190)
          (some 70)).graph_high_line = some v →
        (new_xdrip_data_callback 5000 (Message.mk (some 0) (some [45, 45, 45]) (some 2)
            (some [43, 49]) none (some 190) (some 70)) watch_prev).graph_high_line = v) ∧
      (∀ v, (Message.mk (some 0) (some [45, 45, 45]) (some 2) (some [43, 49]) none (some 190)
          (some 70)).graph_low_line = some v →
        (new_xdrip_data_callback 5000 (Message.mk (some 0) (some [45, 45, 45]) (some 2)
            (some [43, 49]) none (some 190) (some 70)) watch_prev).graph_low_line = v)) :=
  ⟨rfl,
    timestamp_zero_sentinel 5000
      (Message.mk (some 0) (some [45, 45, 45]) (some 2) (some [43, 49]) none (some 190)
        (some 70)) watch_prev rfl⟩

end XdripWatchface
